import Mathlib

set_option autoImplicit false

namespace AnkiGen

/-! Shallow embedding of `src/app/main.py` (Anki Flashcard Generator API).

The HTTP layer's pydantic models apply defaults before the handler body runs,
so the request data model below is split into inbound shapes (with `Option`
for omittable fields) and the post-default shapes the handlers consume.

The `genanki` library is an external dependency whose source is not part of
this repository; its behaviour used by `main.py` (model/deck/note records,
GUID synthesis, package serialization) is modelled from the spec, §4.2.

Randomness (`uuid.uuid4().hex`, `random.randrange`) is modelled by passing
the drawn values in explicitly: `uuidHex` for the filename nonce and
`ids : Nat → Nat` for the successive `random.randrange(1 << 30, 1 << 31)`
draws in call order (index 0: model id; index k: id of the k-th deck, 1-based).

The shared output directory is modelled as an association list from
normalized absolute path strings to file contents; `joinPath`/`normPath`
model `os.path.join` plus the OS-level resolution of `.`/`..` segments that
`os.path.exists` and `open` perform (no symlinks). -/

/-- Card template record (`CardTemplate` pydantic model, main.py lines 25-40):
all three fields are required. -/
structure CardTemplate where
  name : String
  qfmt : String
  afmt : String
deriving DecidableEq

/-- Model definition after pydantic defaults (`ModelDefinition`, lines 42-65):
`css` is optional with default `""`, so the handler sees a plain string. -/
structure ModelDefinition where
  name : String
  fields : List String
  templates : List CardTemplate
  css : String
deriving DecidableEq

/-- Note after pydantic defaults (`Note`, lines 67-82): `tags` defaults to the
empty list; `guid` defaults to `None`, i.e. stays absent. -/
structure Note where
  fields : List String
  tags : List String
  guid : Option String
deriving DecidableEq

/-- Deck after pydantic defaults (`Deck`, lines 84-104): `description`
defaults to `""`. -/
structure Deck where
  name : String
  description : String
  notes : List Note
deriving DecidableEq

/-- Top-level request body (`Package`, lines 106-111). -/
structure Package where
  decks : List Deck
  model : ModelDefinition
deriving DecidableEq

/-- Inbound note shape: `none` means the field was omitted in the JSON body. -/
structure NoteIn where
  fields : List String
  tags : Option (List String)
  guid : Option String
deriving DecidableEq

/-- Inbound deck shape: `none` means `description` was omitted. -/
structure DeckIn where
  name : String
  description : Option String
  notes : List NoteIn
deriving DecidableEq

/-- Inbound model shape: `none` means `css` was omitted. -/
structure ModelDefinitionIn where
  name : String
  fields : List String
  templates : List CardTemplate
  css : Option String
deriving DecidableEq

/-- Inbound package shape. -/
structure PackageIn where
  decks : List DeckIn
  model : ModelDefinitionIn
deriving DecidableEq

/-- Pydantic default application for `Note` (line 72: `tags` default `[]`;
line 73: `guid` default `None`). -/
def parseNote (n : NoteIn) : Note :=
  { fields := n.fields, tags := n.tags.getD [], guid := n.guid }

/-- Pydantic default application for `Deck` (line 89: `description` default `""`). -/
def parseDeck (d : DeckIn) : Deck :=
  { name := d.name, description := d.description.getD "", notes := d.notes.map parseNote }

/-- Pydantic default application for `ModelDefinition` (line 49: `css` default `""`). -/
def parseModelDefinition (m : ModelDefinitionIn) : ModelDefinition :=
  { name := m.name, fields := m.fields, templates := m.templates, css := m.css.getD "" }

/-- Pydantic default application for a whole `Package` body. -/
def parsePackage (p : PackageIn) : Package :=
  { decks := p.decks.map parseDeck, model := parseModelDefinition p.model }

/-- Modelled from the spec: `genanki.Model` (§4.2 steps 1-2) — a record
carrying the generated numeric id and the model data copied verbatim
(main.py lines 148-154). -/
structure GModel where
  model_id : Nat
  name : String
  fields : List String
  templates : List CardTemplate
  css : String
deriving DecidableEq

/-- Modelled from the spec: the source string genanki hashes when it
synthesizes a GUID — the field values joined by a fixed separator
(`'__'.join` of the values). -/
def guidSource : List String → String
  | [] => ""
  | [f] => f
  | f :: g :: rest => f ++ ("__") ++ guidSource (g :: rest)

/-- Modelled from the spec: the stable, deterministic identifier genanki
derives from the field values when no explicit GUID is supplied (§3). genanki
hashes the joined field values and base-91-encodes the first bytes; since the
spec fixes only that the identifier is a deterministic function of the field
values, the identifier is modelled as the hash source itself. -/
def guid_for (fields : List String) : String :=
  guidSource fields

/-- Modelled from the spec: `genanki.Note` (§4.2 step 3) — field values bound
purely by position, tags carried through, and the GUID resolved to the
caller-supplied one or the synthesized one (main.py lines 164-169). -/
structure GNote where
  model : GModel
  fields : List String
  tags : List String
  guid : String
deriving DecidableEq

/-- Construction of one `genanki.Note` from one inbound note
(main.py lines 164-169). -/
def GNote.make (model : GModel) (n : Note) : GNote :=
  { model := model, fields := n.fields, tags := n.tags,
    guid := n.guid.getD (guid_for n.fields) }

/-- Modelled from the spec: `genanki.Deck` (§4.2 steps 1, 3) — generated
numeric id, name, description and the note table in insertion order
(main.py lines 158-171). -/
structure GDeck where
  deck_id : Nat
  name : String
  description : String
  notes : List GNote
deriving DecidableEq

/-- Modelled from the spec: the serialized package content (§4.2 step 4) —
all decks of the build call collected into one package unit. -/
structure Archive where
  decks : List GDeck
deriving DecidableEq

/-- Content of one file in the shared output directory: either a built
package archive or raw bytes (uploaded media / arbitrary files). -/
inductive FileData where
  | apkg (a : Archive)
  | raw (bytes : List Nat)
deriving DecidableEq

/-- The filesystem visible to the service, keyed by normalized absolute
path strings. -/
abbrev Storage := List (String × FileData)

/-- File lookup (models `os.path.exists` + reading the file). -/
def getFile (fs : Storage) (p : String) : Option FileData :=
  List.lookup p fs

/-- File write (models `open(path, "wb")` + write): replaces any existing
entry at the path. -/
def setFile (fs : Storage) (p : String) (d : FileData) : Storage :=
  (p, d) :: fs.filter (fun e => !(e.1 == p))

/-- The storage root (line 22): `OUTPUT_FOLDER` defaults to the temp
directory; modelled at its default value. -/
def OUTPUT_FOLDER : String := "/tmp"

/-- `os.path.join(root, name)`: an absolute second component discards the
first. -/
def joinPath (root name : String) : String :=
  if name.data.head? = some ('/') then name else root ++ ("/") ++ name

/-- Split a character list into segments at each slash. -/
def splitSeg : List Char → List (List Char)
  | [] => [[]]
  | c :: cs =>
    match splitSeg cs with
    | [] => [[]]
    | s :: rest => if c = '/' then [] :: s :: rest else (c :: s) :: rest

/-- Resolve `.`/`..`/empty segments of an absolute path against a stack
(`..` at the root stays at the root). -/
def normStack (acc : List (List Char)) : List (List Char) → List (List Char)
  | [] => acc.reverse
  | s :: rest =>
    if s = [] ∨ s = ['.'] then normStack acc rest
    else if s = ['.', '.'] then normStack acc.tail rest
    else normStack (s :: acc) rest

/-- Rebuild an absolute path from resolved segments. -/
def buildAbs (segs : List (List Char)) : List Char :=
  match segs with
  | [] => ['/']
  | _ => segs.foldl (fun acc s => acc ++ '/' :: s) []

/-- OS-level resolution of an absolute path: split at slashes, resolve
`.`/`..`/empty segments, rebuild. -/
def normPath (p : String) : String :=
  ⟨buildAbs (normStack [] (splitSeg p.data))⟩

/-- `fastapi.HTTPException` as raised by the handlers. -/
structure HTTPException where
  status_code : Nat
  detail : String
deriving DecidableEq

/-- Response model of `POST /generate_flashcards/` (lines 120-125). -/
structure FlashcardGenerationResponse where
  message : String
  download_url : String
deriving DecidableEq

/-- Response model of `POST /upload_media/` (lines 113-118). -/
structure MediaUploadResponse where
  filename : String
  status : String
deriving DecidableEq

/-- Outcome of the one effectful step of the build, the file write
(line 173): either it completes, or it raises with some exception text
after leaving at most a partial file behind. -/
inductive WriteOutcome where
  | ok
  | fail (err : String) (leftover : Option FileData)

/-- The generated archive filename (line 145): `flashcards_<uuid4 hex>.apkg`. -/
def flashFilename (uuidHex : String) : String :=
  ("flashcards_") ++ uuidHex ++ (".apkg")

/-- The hard-coded base of the returned download URL (line 176). -/
def base_url : String := "https://anki-gen5.onrender.com"

/-- `genanki.Model(...)` construction (lines 148-154): one id drawn by
`random.randrange(1 << 30, 1 << 31)` (draw index 0), everything else copied
from the request model. -/
def buildModel (m : ModelDefinition) (ids : Nat → Nat) : GModel :=
  { model_id := ids 0, name := m.name, fields := m.fields,
    templates := m.templates, css := m.css }

/-- The deck loop (lines 156-171): the k-th deck gets the k-th id draw
(1-based, after the model's draw) and its notes in input order, each built
against the single model object. -/
def buildDecks (model : GModel) (ids : Nat → Nat) : Nat → List Deck → List GDeck
  | _, [] => []
  | k, d :: rest =>
    { deck_id := ids k, name := d.name, description := d.description,
      notes := d.notes.map (GNote.make model) } :: buildDecks model ids (k + 1) rest

/-- The in-memory package content handed to `genanki.Package(...)` (line 173):
all decks of this call, sharing the one model. -/
def buildArchive (pkg : Package) (ids : Nat → Nat) : Archive :=
  ⟨buildDecks (buildModel pkg.model ids) ids 1 pkg.decks⟩

/-- Handler of `POST /generate_flashcards/` (lines 131-181). The try block
covers the whole body; the only effectful step is the file write, so an
exception is modelled at that step (`WriteOutcome.fail`), in which case the
`except` clause returns the single 500 response with the exception text
embedded (line 181). On success the archive is written under the generated
filename and the response carries the absolute download URL (lines 173-179). -/
def generate_flashcards (pkg : Package) (uuidHex : String) (ids : Nat → Nat)
    (w : WriteOutcome) (fs : Storage) :
    (HTTPException ⊕ FlashcardGenerationResponse) × Storage :=
  let filename := flashFilename uuidHex
  let file_path := normPath (joinPath OUTPUT_FOLDER filename)
  let archive := buildArchive pkg ids
  match w with
  | .ok =>
    (Sum.inr { message := "Flashcards generated successfully",
               download_url := base_url ++ ("/download/") ++ filename },
     setFile fs file_path (.apkg archive))
  | .fail e leftover =>
    (Sum.inl { status_code := 500,
               detail := ("An error occurred during flashcard generation: ") ++ e },
     match leftover with
     | none => fs
     | some d => setFile fs file_path d)

/-- Handler of `GET /download/{filename}` (lines 186-209): joins the name
onto the storage root, 404s when nothing exists there, otherwise serves the
file content with the attachment disposition header built from the name. -/
def download_file (fs : Storage) (filename : String) :
    HTTPException ⊕ (FileData × String × String) :=
  let file_path := normPath (joinPath OUTPUT_FOLDER filename)
  match getFile fs file_path with
  | none => Sum.inl { status_code := 404, detail := "File not found" }
  | some d => Sum.inr (d, filename, ("attachment; filename=") ++ filename)

/-- The spec-side reading of "the named file exists under the storage root":
the directory entry of the storage root with exactly that name
(keys of `Storage` are normalized, so a traversal name is never a key). -/
def underRootEntry (fs : Storage) (filename : String) : Option FileData :=
  getFile fs (OUTPUT_FOLDER ++ ("/") ++ filename)

/-- Handler of `POST /upload_media/` (lines 215-235): writes the uploaded
bytes verbatim under the caller-supplied filename inside the storage root,
replacing any existing file, and reports success. -/
def upload_media (fs : Storage) (filename : String) (content : List Nat) :
    (HTTPException ⊕ MediaUploadResponse) × Storage :=
  let file_path := normPath (joinPath OUTPUT_FOLDER filename)
  (Sum.inr { filename := filename, status := "File uploaded successfully" },
   setFile fs file_path (.raw content))

/-! Helper lemmas about the storage model. -/

theorem lookup_none_filter (fs : Storage) (p : String)
    (h : List.lookup p fs = none) : fs.filter (fun e => !(e.1 == p)) = fs := by
  induction fs with
  | nil => rfl
  | cons e rest ih =>
    obtain ⟨k, v⟩ := e
    by_cases hk : p = k
    · subst hk
      simp [List.lookup] at h
    · have hbk : (p == k) = false := beq_eq_false_iff_ne.mpr hk
      simp only [List.lookup, hbk] at h
      have hkp : (!(k == p)) = true := by
        simp only [Bool.not_eq_true', beq_eq_false_iff_ne]
        exact fun h2 => hk h2.symm
      simp [List.filter, hkp, ih h]

theorem getFile_setFile_self (fs : Storage) (p : String) (d : FileData) :
    getFile (setFile fs p d) p = some d := by
  simp [getFile, setFile, List.lookup]

theorem setFile_fresh_length (fs : Storage) (p : String) (d : FileData)
    (h : getFile fs p = none) : (setFile fs p d).length = fs.length + 1 := by
  simp [setFile, lookup_none_filter fs p h]

/-! Helper lemmas about strings. -/

theorem str_append_cancel_left {s a b : String} (h : s ++ a = s ++ b) : a = b := by
  have hd := congrArg String.data h
  rw [String.data_append, String.data_append] at hd
  exact String.ext (List.append_cancel_left hd)

theorem str_append_cancel_right {a b t : String} (h : a ++ t = b ++ t) : a = b := by
  have hd := congrArg String.data h
  rw [String.data_append, String.data_append] at hd
  exact String.ext (List.append_cancel_right hd)

/-! Helper lemmas about GUID synthesis. -/

theorem guidSource_cons (f : String) (r : List String) (hr : r ≠ []) :
    guidSource (f :: r) = f ++ ("__") ++ guidSource r := by
  cases r with
  | nil => exact absurd rfl hr
  | cons g t => rfl

theorem guidSource_set_ne :
    ∀ (xs : List String) (i : Nat) (h : i < xs.length) (v : String),
      v ≠ xs.get ⟨i, h⟩ → guidSource (xs.set i v) ≠ guidSource xs := by
  intro xs
  induction xs with
  | nil => intro i h; simp at h
  | cons x rest ih =>
    intro i h v hv
    cases i with
    | zero =>
      cases rest with
      | nil => simpa [guidSource] using hv
      | cons y t =>
        intro he
        rw [List.set_cons_zero, guidSource_cons v (y :: t) (by simp),
          guidSource_cons x (y :: t) (by simp)] at he
        exact hv (by simpa using str_append_cancel_right (str_append_cancel_right he))
    | succ j =>
      cases rest with
      | nil => simp at h
      | cons y t =>
        have hj : j < (y :: t).length := by simpa using h
        intro he
        rw [List.set_cons_succ,
          guidSource_cons x ((y :: t).set j v) (by
            intro hnil
            have := congrArg List.length hnil
            simp at this),
          guidSource_cons x (y :: t) (by simp)] at he
        exact ih j hj v (by simpa using hv) (str_append_cancel_left he)

/-! Helper lemmas about the builder. -/

theorem buildDecks_map_notes (m : GModel) (ids : Nat → Nat) :
    ∀ (k : Nat) (l : List Deck),
      (buildDecks m ids k l).map GDeck.notes
        = l.map (fun d => d.notes.map (GNote.make m)) := by
  intro k l
  induction l generalizing k with
  | nil => rfl
  | cons d rest ih => simp [buildDecks, ih]

theorem buildDecks_map_deck_id (m : GModel) (ids : Nat → Nat) :
    ∀ (k : Nat) (l : List Deck),
      (buildDecks m ids k l).map GDeck.deck_id
        = (List.range l.length).map (fun j => ids (k + j)) := by
  intro k l
  induction l generalizing k with
  | nil => rfl
  | cons d rest ih =>
    simp only [buildDecks, List.map_cons, List.length_cons, List.range_succ_eq_map,
      List.map_map, ih (k + 1)]
    refine congrArg₂ _ (by simp) ?_
    apply List.map_congr_left
    intro j _
    simp only [Function.comp, Nat.succ_eq_add_one]
    exact congrArg ids (by omega)

theorem buildDecks_map_model (m : GModel) (ids : Nat → Nat) :
    ∀ (k : Nat) (l : List Deck),
      (buildDecks m ids k l).map (fun gd => gd.notes.map GNote.model)
        = l.map (fun d => d.notes.map (fun _ => m)) := by
  intro k l
  induction l generalizing k with
  | nil => rfl
  | cons d rest ih =>
    simp only [buildDecks, List.map_cons, ih (k + 1), List.map_map]
    refine congrArg₂ _ ?_ rfl
    apply List.map_congr_left
    intro n _
    rfl

/-! Helper lemmas about path resolution. -/

theorem splitSeg_ne_nil : ∀ (l : List Char), splitSeg l ≠ [] := by
  intro l
  cases l with
  | nil => simp [splitSeg]
  | cons c cs =>
    simp only [splitSeg]
    cases splitSeg cs with
    | nil => simp
    | cons s rest =>
      by_cases hc : c = '/' <;> simp [hc]

theorem splitSeg_no_sep : ∀ (l : List Char), ('/') ∉ l → splitSeg l = [l] := by
  intro l
  induction l with
  | nil => intro _; rfl
  | cons c cs ih =>
    intro h
    have hc : ¬ c = '/' := by
      intro hc
      subst hc
      exact h (List.mem_cons_self _ _)
    have hcs : ('/') ∉ cs := fun hm => h (List.mem_cons_of_mem c hm)
    simp [splitSeg, ih hcs, hc]

theorem splitSeg_cons_sep (l : List Char) (s : List Char) (rest : List (List Char))
    (h : splitSeg l = s :: rest) : splitSeg ('/' :: l) = [] :: s :: rest := by
  simp [splitSeg, h]

theorem splitSeg_cons_ne (c : Char) (hc : c ≠ '/') (l : List Char)
    (s : List Char) (rest : List (List Char))
    (h : splitSeg l = s :: rest) : splitSeg (c :: l) = (c :: s) :: rest := by
  simp [splitSeg, h, hc]

theorem normStack_push (acc : List (List Char)) (s : List Char)
    (rest : List (List Char)) (h0 : s ≠ []) (h1 : s ≠ ['.']) (h2 : s ≠ ['.', '.']) :
    normStack acc (s :: rest) = normStack (s :: acc) rest := by
  simp [normStack, h0, h1, h2]

theorem normPath_plain (fn : String) (hsep : ('/') ∉ fn.data)
    (h0 : fn.data ≠ []) (h1 : fn.data ≠ ['.']) (h2 : fn.data ≠ ['.', '.']) :
    normPath (joinPath OUTPUT_FOLDER fn) = OUTPUT_FOLDER ++ ("/") ++ fn := by
  have hhead : ¬ fn.data.head? = some ('/') := by
    cases hfn : fn.data with
    | nil => simp
    | cons c cs =>
      simp only [List.head?_cons, Option.some.injEq]
      intro hc
      exact hsep (by simp [hfn, hc])
  have hjoin : joinPath OUTPUT_FOLDER fn = OUTPUT_FOLDER ++ ("/") ++ fn := by
    simp [joinPath, hhead]
  rw [hjoin]
  have hdata : (OUTPUT_FOLDER ++ ("/") ++ fn).data
      = '/' :: 't' :: 'm' :: 'p' :: '/' :: fn.data := by
    rw [String.data_append]
    rfl
  have hsplit : splitSeg ('/' :: 't' :: 'm' :: 'p' :: '/' :: fn.data)
      = [] :: ['t', 'm', 'p'] :: [fn.data] := by
    have s0 : splitSeg fn.data = [fn.data] := splitSeg_no_sep fn.data hsep
    have s1 : splitSeg ('/' :: fn.data) = [] :: [fn.data] :=
      splitSeg_cons_sep _ _ _ s0
    have s2 : splitSeg ('p' :: '/' :: fn.data) = ['p'] :: [fn.data] :=
      splitSeg_cons_ne 'p' (by decide) _ _ _ s1
    have s3 : splitSeg ('m' :: 'p' :: '/' :: fn.data) = ['m', 'p'] :: [fn.data] :=
      splitSeg_cons_ne 'm' (by decide) _ _ _ s2
    have s4 : splitSeg ('t' :: 'm' :: 'p' :: '/' :: fn.data) = ['t', 'm', 'p'] :: [fn.data] :=
      splitSeg_cons_ne 't' (by decide) _ _ _ s3
    exact splitSeg_cons_sep _ _ _ s4
  have hstack : normStack [] ([] :: ['t', 'm', 'p'] :: [fn.data]) = [['t', 'm', 'p'], fn.data] := by
    have p1 : normStack ([] : List (List Char)) ([] :: ['t', 'm', 'p'] :: [fn.data])
        = normStack [] (['t', 'm', 'p'] :: [fn.data]) := by simp [normStack]
    have p2 : normStack ([] : List (List Char)) (['t', 'm', 'p'] :: [fn.data])
        = normStack [['t', 'm', 'p']] [fn.data] :=
      normStack_push _ _ _ (by decide) (by decide) (by decide)
    have p3 : normStack [['t', 'm', 'p']] [fn.data]
        = normStack (fn.data :: [['t', 'm', 'p']]) [] :=
      normStack_push _ _ _ h0 h1 h2
    rw [p1, p2, p3]
    rfl
  apply String.ext
  show buildAbs (normStack [] (splitSeg (OUTPUT_FOLDER ++ ("/") ++ fn).data))
      = (OUTPUT_FOLDER ++ ("/") ++ fn).data
  rw [hdata, hsplit, hstack]
  show ((([] : List Char) ++ '/' :: ['t', 'm', 'p']) ++ '/' :: fn.data)
      = '/' :: 't' :: 'm' :: 'p' :: '/' :: fn.data
  simp

theorem buildDecks_map_fields (m : GModel) (ids : Nat → Nat) :
    ∀ (k : Nat) (l : List Deck),
      (buildDecks m ids k l).map (fun gd => gd.notes.map GNote.fields)
        = l.map (fun d => d.notes.map Note.fields) := by
  intro k l
  induction l generalizing k with
  | nil => rfl
  | cons d rest ih =>
    simp only [buildDecks, List.map_cons, ih (k + 1), List.map_map]
    refine congrArg₂ _ ?_ rfl
    apply List.map_congr_left
    intro n _
    rfl

/-! Sample concrete inputs used to exercise the definitions. -/

/-- A package with two empty decks. -/
def samplePkg2 : Package :=
  ⟨[⟨("A"), (""), []⟩, ⟨("B"), (""), []⟩], ⟨("M"), [], [], ("")⟩⟩

/-- A package with one deck holding one note matching the model field count. -/
def samplePkg1 : Package :=
  ⟨[⟨("A"), (""), [⟨["a"], [], none⟩]⟩], ⟨("M"), ["F"], [], ("")⟩⟩

/-- A package whose single note has fewer field values than the model has
field names. -/
def samplePkgMismatch : Package :=
  ⟨[⟨("D"), (""), [⟨["x"], [], none⟩]⟩], ⟨("M"), ["F", "B"], [], ("")⟩⟩

/-! The claims. -/

/-- C10: an inbound package omitting a note's tags, a deck's description or
the model's css gets the empty list, empty string and empty string
respectively (never a null), while an omitted guid stays absent and the
builder then synthesizes the GUID from the field values. -/
theorem omitted_fields_default_values (fields mfields : List String)
    (dname mname : String) (tpls : List CardTemplate) (notes : List NoteIn) (m : GModel) :
    parseNote ⟨fields, none, none⟩ = ⟨fields, [], none⟩
    ∧ parseDeck ⟨dname, none, notes⟩ = ⟨dname, "", notes.map parseNote⟩
    ∧ parseModelDefinition ⟨mname, mfields, tpls, none⟩ = ⟨mname, mfields, tpls, ""⟩
    ∧ (GNote.make m (parseNote ⟨fields, none, none⟩)).guid = guid_for fields :=
  ⟨rfl, rfl, rfl, rfl⟩

/-- C7: uploading twice under the same filename succeeds both times with the
success response and leaves exactly the second call's bytes stored under
that name — overwrite, never a conflict error. -/
theorem upload_same_name_overwrites (fs : Storage) (filename : String) (b1 b2 : List Nat) :
    (upload_media fs filename b1).1
        = Sum.inr ⟨filename, "File uploaded successfully"⟩
    ∧ (upload_media (upload_media fs filename b1).2 filename b2).1
        = Sum.inr ⟨filename, "File uploaded successfully"⟩
    ∧ getFile (upload_media (upload_media fs filename b1).2 filename b2).2
        (normPath (joinPath OUTPUT_FOLDER filename)) = some (.raw b2) :=
  ⟨rfl, rfl, getFile_setFile_self _ _ _⟩

/-- C8: one model id is drawn (the first draw of the call) and every note of
every built deck references the single model object carrying that id. -/
theorem single_model_id_shared_by_all_notes (pkg : Package) (ids : Nat → Nat) :
    (buildModel pkg.model ids).model_id = ids 0
    ∧ (buildArchive pkg ids).decks.map (fun gd => gd.notes.map GNote.model)
        = pkg.decks.map (fun d => d.notes.map (fun _ => buildModel pkg.model ids)) :=
  ⟨rfl, buildDecks_map_model _ _ 1 _⟩

/-- C9: a successful build returns the `{message, download_url}` shape whose
URL is `<base>/download/<generated-filename>`, and that generated filename is
exactly the one the archive was written under in the storage root. -/
theorem success_response_shape_and_written_file (pkg : Package) (uuidHex : String)
    (ids : Nat → Nat) (fs : Storage) :
    (generate_flashcards pkg uuidHex ids .ok fs).1
      = Sum.inr ⟨"Flashcards generated successfully",
                 base_url ++ ("/download/") ++ flashFilename uuidHex⟩
    ∧ getFile (generate_flashcards pkg uuidHex ids .ok fs).2
        (normPath (joinPath OUTPUT_FOLDER (flashFilename uuidHex)))
      = some (.apkg (buildArchive pkg ids)) :=
  ⟨rfl, getFile_setFile_self _ _ _⟩

/-- C6: when the build raises, the handler returns the single generic 500
response with the exception text embedded (and hence no download reference);
a response naming a filename only arises on the success path, after the
write completed, with the named file present in storage. -/
theorem build_failure_single_500_success_only_filename (pkg : Package) (uuidHex : String)
    (ids : Nat → Nat) (fs : Storage) (e : String) (leftover : Option FileData) :
    (generate_flashcards pkg uuidHex ids (.fail e leftover) fs).1
      = Sum.inl ⟨500, ("An error occurred during flashcard generation: ") ++ e⟩
    ∧ (generate_flashcards pkg uuidHex ids .ok fs).1
      = Sum.inr ⟨"Flashcards generated successfully",
                 base_url ++ ("/download/") ++ flashFilename uuidHex⟩
    ∧ getFile (generate_flashcards pkg uuidHex ids .ok fs).2
        (normPath (joinPath OUTPUT_FOLDER (flashFilename uuidHex)))
      = some (.apkg (buildArchive pkg ids)) :=
  ⟨rfl, rfl, getFile_setFile_self _ _ _⟩

/-- C1: one successful build call adds exactly one archive file to storage,
and that archive has exactly as many deck entries as the input package,
deck i carrying exactly input deck i's notes in input order. -/
theorem build_produces_one_archive_with_decks_in_order (pkg : Package) (uuidHex : String)
    (ids : Nat → Nat) (fs : Storage)
    (hfresh : getFile fs (normPath (joinPath OUTPUT_FOLDER (flashFilename uuidHex))) = none) :
    (generate_flashcards pkg uuidHex ids .ok fs).2.length = fs.length + 1
    ∧ getFile (generate_flashcards pkg uuidHex ids .ok fs).2
        (normPath (joinPath OUTPUT_FOLDER (flashFilename uuidHex)))
      = some (.apkg (buildArchive pkg ids))
    ∧ (buildArchive pkg ids).decks.length = pkg.decks.length
    ∧ (buildArchive pkg ids).decks.map GDeck.notes
      = pkg.decks.map (fun d => d.notes.map (GNote.make (buildModel pkg.model ids))) := by
  refine ⟨?_, getFile_setFile_self _ _ _, ?_, buildDecks_map_notes _ _ 1 _⟩
  · exact setFile_fresh_length fs _ _ hfresh
  · have h := congrArg List.length
      (buildDecks_map_notes (buildModel pkg.model ids) ids 1 pkg.decks)
    simpa using h

/-- C1 witness: the theorem applied to a concrete one-deck package, the
uuid hex value u, the constant draw stream and empty storage. -/
theorem build_produces_one_archive_with_decks_in_order_witness :
    (generate_flashcards samplePkg1 ("u") (fun _ => 2 ^ 30) .ok []).2.length
        = ([] : Storage).length + 1
    ∧ getFile (generate_flashcards samplePkg1 ("u") (fun _ => 2 ^ 30) .ok []).2
        (normPath (joinPath OUTPUT_FOLDER (flashFilename ("u"))))
      = some (.apkg (buildArchive samplePkg1 (fun _ => 2 ^ 30)))
    ∧ (buildArchive samplePkg1 (fun _ => 2 ^ 30)).decks.length = samplePkg1.decks.length
    ∧ (buildArchive samplePkg1 (fun _ => 2 ^ 30)).decks.map GDeck.notes
      = samplePkg1.decks.map
          (fun d => d.notes.map (GNote.make (buildModel samplePkg1.model (fun _ => 2 ^ 30)))) :=
  build_produces_one_archive_with_decks_in_order samplePkg1 ("u") (fun _ => 2 ^ 30) [] rfl

/-- C2: a note without an explicit guid gets a synthesized GUID that is a
function of the field values alone — equal field values give equal GUIDs in
any build calls — and changing one field value changes the GUID source
string the identifier is derived from. -/
theorem guid_synthesis_deterministic_content_derived :
    (∀ (m1 m2 : GModel) (n1 n2 : Note), n1.guid = none → n2.guid = none →
        n1.fields = n2.fields → (GNote.make m1 n1).guid = (GNote.make m2 n2).guid)
    ∧ (∀ (xs : List String) (i : Nat) (h : i < xs.length) (v : String),
        v ≠ xs.get ⟨i, h⟩ → guidSource (xs.set i v) ≠ guidSource xs) := by
  constructor
  · intro m1 m2 n1 n2 h1 h2 hf
    simp [GNote.make, h1, h2, hf]
  · exact guidSource_set_ne

/-- C2 witness: equal fields under different models and tags give the same
synthesized GUID, and editing the first of two fields changes the source. -/
theorem guid_synthesis_deterministic_content_derived_witness :
    (GNote.make ⟨1, ("M"), [], [], ("")⟩ ⟨["a", "b"], [], none⟩).guid
      = (GNote.make ⟨2, ("N"), [], [], ("")⟩ ⟨["a", "b"], ["t"], none⟩).guid
    ∧ guidSource (["a", "b"].set 0 ("c")) ≠ guidSource ["a", "b"] :=
  ⟨guid_synthesis_deterministic_content_derived.1 ⟨1, ("M"), [], [], ("")⟩
      ⟨2, ("N"), [], [], ("")⟩ ⟨["a", "b"], [], none⟩ ⟨["a", "b"], ["t"], none⟩ rfl rfl rfl,
   guid_synthesis_deterministic_content_derived.2 ["a", "b"] 0 (by decide) ("c") (by decide)⟩

/-- C3 counterexample: the deck ids are independent draws, so a build call
whose two draws after the model draw coincide assigns the same id to both
decks — within-call uniqueness fails on such a draw sequence. -/
theorem deck_ids_can_collide_cex :
    ¬ (((buildArchive samplePkg2 (fun _ => 2 ^ 30)).decks.map GDeck.deck_id).Nodup) := by
  decide

/-- C3 amended: the deck ids of one build call are pairwise distinct
whenever the underlying random draws are pairwise distinct; the code does
nothing further to guarantee uniqueness. -/
theorem deck_ids_distinct_of_distinct_draws (pkg : Package) (ids : Nat → Nat)
    (hinj : Function.Injective ids) :
    ((buildArchive pkg ids).decks.map GDeck.deck_id).Nodup := by
  rw [show (buildArchive pkg ids).decks
      = buildDecks (buildModel pkg.model ids) ids 1 pkg.decks from rfl,
    buildDecks_map_deck_id]
  refine List.Nodup.map ?_ (List.nodup_range _)
  intro a b hab
  have h := hinj hab
  omega

/-- C3 amended witness: with the identity draw stream (injective) the two
deck ids of the sample package are distinct. -/
theorem deck_ids_distinct_of_distinct_draws_witness :
    ((buildArchive samplePkg2 (fun n => n)).decks.map GDeck.deck_id).Nodup :=
  deck_ids_distinct_of_distinct_draws samplePkg2 (fun n => n) (fun a b h => h)

/-- C4 counterexample: with a file present outside the storage root and a
traversal filename, the handler resolves the joined path out of the root and
serves that file instead of returning 404, although no file of that name
exists under the storage root — the claimed equivalence fails. -/
theorem download_traversal_breaks_not_found_iff_cex :
    download_file [(("/secret"), .raw [7])] ("../secret")
        ≠ Sum.inl ⟨404, ("File not found")⟩
    ∧ underRootEntry [(("/secret"), .raw [7])] ("../secret") = none := by
  constructor
  · decide
  · decide

/-- C4 amended: for filename arguments without a path separator and other
than the empty, dot and dot-dot names, the handler returns 404 exactly when
no file of that name exists under the storage root, and otherwise serves the
stored file content verbatim with the attachment disposition header. -/
theorem download_plain_filename_not_found_iff (fs : Storage) (filename : String)
    (hsep : ('/') ∉ filename.data) (h0 : filename.data ≠ [])
    (h1 : filename.data ≠ ['.']) (h2 : filename.data ≠ ['.', '.']) :
    (download_file fs filename = Sum.inl ⟨404, ("File not found")⟩
      ↔ underRootEntry fs filename = none)
    ∧ ∀ d : FileData, underRootEntry fs filename = some d →
        download_file fs filename
          = Sum.inr (d, filename, ("attachment; filename=") ++ filename) := by
  have hp : normPath (joinPath OUTPUT_FOLDER filename) = OUTPUT_FOLDER ++ ("/") ++ filename :=
    normPath_plain filename hsep h0 h1 h2
  have hd : download_file fs filename
      = (match underRootEntry fs filename with
         | none => Sum.inl ⟨404, ("File not found")⟩
         | some d => Sum.inr (d, filename, ("attachment; filename=") ++ filename)) := by
    show (match getFile fs (normPath (joinPath OUTPUT_FOLDER filename)) with
         | none => (Sum.inl ⟨404, ("File not found")⟩ :
             HTTPException ⊕ (FileData × String × String))
         | some d => Sum.inr (d, filename, ("attachment; filename=") ++ filename)) = _
    rw [hp]
    rfl
  rw [hd]
  cases hu : underRootEntry fs filename with
  | none => simp
  | some d => simp

/-- C4 amended witness: the theorem applied to storage holding one file
under the root and that file's plain name. -/
theorem download_plain_filename_not_found_iff_witness :
    (download_file [(("/tmp/a.apkg"), FileData.raw [1])] ("a.apkg")
        = Sum.inr (FileData.raw [1], ("a.apkg"), ("attachment; filename=") ++ ("a.apkg")))
    ∧ (download_file [(("/tmp/a.apkg"), FileData.raw [1])] ("a.apkg")
        = Sum.inl ⟨404, ("File not found")⟩
      ↔ underRootEntry [(("/tmp/a.apkg"), FileData.raw [1])] ("a.apkg") = none) :=
  ⟨(download_plain_filename_not_found_iff [(("/tmp/a.apkg"), FileData.raw [1])] ("a.apkg")
      (by decide) (by decide) (by decide) (by decide)).2 (FileData.raw [1]) (by decide),
   (download_plain_filename_not_found_iff [(("/tmp/a.apkg"), FileData.raw [1])] ("a.apkg")
      (by decide) (by decide) (by decide) (by decide)).1⟩

/-- C5: a package containing a note whose field-value count differs from the
model's field count still builds successfully — the field values are passed
through positionally, unvalidated and unmodified. -/
theorem mismatched_field_count_build_succeeds (pkg : Package) (uuidHex : String)
    (ids : Nat → Nat) (fs : Storage)
    (hmm : ∃ d ∈ pkg.decks, ∃ n ∈ d.notes, n.fields.length ≠ pkg.model.fields.length) :
    (generate_flashcards pkg uuidHex ids .ok fs).1
      = Sum.inr ⟨"Flashcards generated successfully",
                 base_url ++ ("/download/") ++ flashFilename uuidHex⟩
    ∧ (buildArchive pkg ids).decks.map (fun gd => gd.notes.map GNote.fields)
      = pkg.decks.map (fun d => d.notes.map Note.fields) :=
  ⟨rfl, buildDecks_map_fields _ _ 1 _⟩

/-- C5 witness: the theorem applied to the sample package whose note has one
field value against a two-field model. -/
theorem mismatched_field_count_build_succeeds_witness :
    (generate_flashcards samplePkgMismatch ("u") (fun _ => 2 ^ 30) .ok []).1
      = Sum.inr ⟨"Flashcards generated successfully",
                 base_url ++ ("/download/") ++ flashFilename ("u")⟩
    ∧ (buildArchive samplePkgMismatch (fun _ => 2 ^ 30)).decks.map
        (fun gd => gd.notes.map GNote.fields)
      = samplePkgMismatch.decks.map (fun d => d.notes.map Note.fields) :=
  mismatched_field_count_build_succeeds samplePkgMismatch ("u") (fun _ => 2 ^ 30) []
    (by decide)

end AnkiGen
